import Mathlib

/-!
Verification development for the ClearML lifecycle-callback adapter
(src/ultralytics/yolo/utils/callbacks/clearml.py).

The adapter is embedded shallowly: every handler becomes a pure Lean
function from the trainer/validator state it reads to the list of calls
it issues on the tracking session (an `Event` trace), or to `Except`
when the Python code can raise.  The external tracking client is only
ever written through, so its API surface is modelled as the event trace;
the one external call whose result matters (`Task.init`) is passed in as
an explicit function argument.
-/

/-- A file in the run directory, identified by its final path component,
together with the result of the `f.exists()` check the handler performs. -/
structure FsFile where
  name : String
  existsOnDisk : Bool
  deriving DecidableEq, Repr

/-- One call issued on the tracking session (the write-only external API). -/
inductive Event where
  | reportImage (title series localPath : String) (iteration : Nat)
  | reportPlot (title : String)
  | reportSingleValue (name : String) (value : Rat)
  | updateOutputModel (modelPath modelName : String) (autoDeleteFile : Bool)
  deriving DecidableEq, Repr

/-- True exactly on `updateOutputModel` events (checkpoint uploads). -/
def Event.isModelUpload : Event → Bool
  | .updateOutputModel _ _ _ => true
  | _ => false

/-- Longest run of decimal digits at the head of the list; this is the
greedy capture of a regex group of digits. -/
def leadingDigits : List Char → List Char
  | [] => []
  | c :: cs => if c.isDigit then c :: leadingDigits cs else []

/-- Decimal value of a digit string, as computed by Python `int`. -/
def digitsToNat (ds : List Char) : Nat :=
  ds.foldl (fun n c => 10 * n + (c.toNat - 48)) 0

/-- Result of a successful `re.search` for the pattern `_batch` followed by
one or more digits: the whole matched substring (`it.group()`) and the
integer value of its digit group (`int(it.groups()[0])`). -/
structure BatchMatch where
  token : List Char
  num : Nat
  deriving DecidableEq, Repr

/-- Attempt to match the regex `_batch` followed by one or more digits at
the head of `s` (greedy digits, as the regex engine does). -/
def matchBatchAt (s : List Char) : Option BatchMatch :=
  if s.take 6 = "_batch".toList ∧ leadingDigits (s.drop 6) ≠ [] then
    some ⟨"_batch".toList ++ leadingDigits (s.drop 6),
          digitsToNat (leadingDigits (s.drop 6))⟩
  else none

/-- Embedding of Python `re.search` for the pattern `_batch` followed by
digits: scan left to right and return the leftmost match. -/
def searchBatch : List Char → Option BatchMatch
  | [] => none
  | c :: cs =>
    match matchBatchAt (c :: cs) with
    | some m => some m
    | none => searchBatch cs

/-- Fuel-indexed worker for `replaceAll`.  With fuel at least the length of
the input the fuel never runs out, since each step consumes at least one
character. -/
def replaceAllAux (pat : List Char) : Nat → List Char → List Char
  | 0, s => s
  | _ + 1, [] => []
  | fuel + 1, c :: cs =>
    if 0 < pat.length ∧ (c :: cs).take pat.length = pat then
      replaceAllAux pat fuel ((c :: cs).drop pat.length)
    else
      c :: replaceAllAux pat fuel cs

/-- Embedding of Python `str.replace(pat, "")`: delete every non-overlapping
occurrence of `pat`, scanning left to right. -/
def replaceAll (pat s : List Char) : List Char :=
  replaceAllAux pat s.length s

/-- Fuel-indexed worker for `countOcc`, following the same scan as
`replaceAllAux`. -/
def countOccAux (pat : List Char) : Nat → List Char → Nat
  | 0, _ => 0
  | _ + 1, [] => 0
  | fuel + 1, c :: cs =>
    if 0 < pat.length ∧ (c :: cs).take pat.length = pat then
      1 + countOccAux pat fuel ((c :: cs).drop pat.length)
    else
      countOccAux pat fuel cs

/-- Number of non-overlapping occurrences of `pat` found by the left-to-right
scan that `str.replace` performs. -/
def countOcc (pat s : List Char) : Nat :=
  countOccAux pat s.length s

/-- Delete only the first occurrence of `pat` (what the spec sentence about
series names describes, used to compare against `replaceAll`). -/
def removeFirstOcc (pat : List Char) : List Char → List Char
  | [] => []
  | c :: cs =>
    if 0 < pat.length ∧ (c :: cs).take pat.length = pat then (c :: cs).drop pat.length
    else c :: removeFirstOcc pat cs

/-- Embedding of the body of `_log_debug_samples` for a single file.  The
source guards the iteration with `if it else 0` but then evaluates
`it.group()` unconditionally while building the series argument, so an
existing file whose name has no batch token raises AttributeError before
any upload; that is the `Except.error` branch here. -/
def logDebugSample (title : String) (f : FsFile) : Except String (List Event) :=
  if f.existsOnDisk then
    match searchBatch f.name.toList with
    | some m =>
      Except.ok [Event.reportImage title (String.mk (replaceAll m.token f.name.toList))
                  f.name m.num]
    | none => Except.error "AttributeError: NoneType object has no attribute group"
  else Except.ok []

/-- Embedding of `_log_debug_samples`: process the files in order; a raised
error aborts the loop. -/
def logDebugSamples (files : List FsFile) (title : String) : Except String (List Event) :=
  match files with
  | [] => Except.ok []
  | f :: fs =>
    match logDebugSample title f with
    | Except.error e => Except.error e
    | Except.ok evs =>
      match logDebugSamples fs title with
      | Except.error e => Except.error e
      | Except.ok rest => Except.ok (evs ++ rest)

/-- Run configuration fields the handlers read (`trainer.args`). -/
structure Args where
  project : Option String
  name : String
  save_interval : Nat
  deriving DecidableEq, Repr

/-- Opaque model handle; the two quantities the external helpers read off
it are carried as fields. -/
structure Model where
  numParams : Nat
  flops : Rat
  deriving DecidableEq, Repr

/-- Validator state the handlers read.  `speed1` is the element at index 1
of the external validator speed tuple; `resultsDict` is
`validator.metrics.results_dict` as an ordered name-value mapping;
`diskFiles` is the content of the validator save directory. -/
structure Validator where
  speed1 : Rat
  resultsDict : List (String × Rat)
  diskFiles : List FsFile
  deriving DecidableEq, Repr

/-- Trainer state the handlers read.  `diskFiles` is the content of the
trainer save directory; `last` and `best` are the checkpoint paths. -/
structure Trainer where
  epoch : Nat
  args : Args
  model : Model
  validator : Validator
  diskFiles : List FsFile
  last : String
  best : String
  deriving DecidableEq, Repr

/-- Modelled from the spec: `get_num_params` (ultralytics.yolo.utils.torch_utils,
not under src/) returns the parameter count of the model; carried as an opaque
field of the model handle. -/
def get_num_params (m : Model) : Nat := m.numParams

/-- Modelled from the spec: `get_flops` (ultralytics.yolo.utils.torch_utils,
not under src/) returns the computational cost of the model in GFLOPs; carried
as an opaque field of the model handle. -/
def get_flops (m : Model) : Rat := m.flops

/-- Python `round(x, 3)` modelled over the rationals: nearest multiple of
1/1000 (ties rounded half up here; no claim in this development depends on
tie behavior or on binary floating point representation). -/
def round3 (x : Rat) : Rat := ((round (x * 1000) : Int) : Rat) / 1000

/-- Glob pattern of the shape `pre*suf` over a file name (the two patterns the
handlers use are `train_batch*.jpg` and `val*.jpg`); `*` matches any, possibly
empty, run of characters. -/
def globMatch (pre suf name : String) : Bool :=
  decide (name.toList.take pre.toList.length = pre.toList) &&
  decide (name.toList.drop (name.toList.length - suf.toList.length) = suf.toList) &&
  decide (pre.toList.length + suf.toList.length ≤ name.toList.length)

/-- Insertion into a list sorted by file name. -/
def insertByName (f : FsFile) : List FsFile → List FsFile
  | [] => [f]
  | g :: gs => if f.name ≤ g.name then f :: g :: gs else g :: insertByName f gs

/-- Python `sorted` over the glob result, comparing path strings. -/
def sortByName : List FsFile → List FsFile
  | [] => []
  | f :: fs => insertByName f (sortByName fs)

/-- Result of `save_dir.glob(pattern)` followed by `sorted`: the existing
files of the directory whose names match, in sorted name order. -/
def sortedGlob (pre suf : String) (files : List FsFile) : List FsFile :=
  sortByName (files.filter (fun f => f.existsOnDisk && globMatch pre suf f.name))

/-- Existence check `(trainer.save_dir / f).exists()` against the directory
content carried on the trainer. -/
def fileExists (t : Trainer) (n : String) : Bool :=
  t.diskFiles.any (fun f => f.name == n && f.existsOnDisk)

/-- Helper for `stem`: on a reversed character list, drop everything up to
and including the first dot. -/
def dropThroughDot : List Char → Option (List Char)
  | [] => none
  | c :: cs => if c = '.' then some cs else dropThroughDot cs

/-- PosixPath `stem`: the file name without its final extension. -/
def stem (s : String) : String :=
  match dropThroughDot s.toList.reverse with
  | some rest => String.mk rest.reverse
  | none => s

/-- The fixed list of well-known result-plot file names of `on_train_end`. -/
def resultPlotNames : List String :=
  ["results.png", "confusion_matrix.png",
   "F1_curve.png", "PR_curve.png", "P_curve.png", "R_curve.png"]

/-- Embedding of `on_train_epoch_end`: at epoch 1 only, log the sorted
existing `train_batch*.jpg` files as debug samples under title Mosaic. -/
def on_train_epoch_end (t : Trainer) : Except String (List Event) :=
  if t.epoch = 1 then
    logDebugSamples (sortedGlob "train_batch" ".jpg" t.diskFiles) "Mosaic"
  else Except.ok []

/-- Embedding of `on_fit_epoch_end`: at epoch 0 only, report the three
model-characterization quantities as single values. -/
def on_fit_epoch_end (t : Trainer) : List Event :=
  if t.epoch = 0 then
    [Event.reportSingleValue "Parameters" ((get_num_params t.model : Nat) : Rat),
     Event.reportSingleValue "GFLOPs" (round3 (get_flops t.model)),
     Event.reportSingleValue "Inference speed (ms/img)" (round3 t.validator.speed1)]
  else []

/-- Embedding of `on_val_end`: log the sorted existing `val*.jpg` files of the
validator save directory as debug samples under title Validation. -/
def on_val_end (v : Validator) : Except String (List Event) :=
  logDebugSamples (sortedGlob "val" ".jpg" v.diskFiles) "Validation"

/-- Embedding of `on_train_end`: upload the existing well-known result plots,
then report every entry of the validator results mapping as a single value.
The source contains no checkpoint upload in this handler. -/
def on_train_end (t : Trainer) : List Event :=
  ((resultPlotNames.filter (fun n => fileExists t n)).map
      (fun n => Event.reportPlot (stem n)))
    ++ (t.validator.resultsDict.map (fun kv => Event.reportSingleValue kv.1 kv.2))

/-- Embedding of `on_model_save`: the gate `trainer.epoch % trainer.args.save_interval == 0`
raises ZeroDivisionError in Python when the interval is 0; otherwise, on the
matching epochs, the last checkpoint is uploaded under the name
`last_` followed by the run name, without deleting the local file.  The
upload of the best checkpoint is commented out in the source. -/
def on_model_save (t : Trainer) : Except String (List Event) :=
  if t.args.save_interval = 0 then
    Except.error "ZeroDivisionError: integer modulo by zero"
  else if t.epoch % t.args.save_interval = 0 then
    Except.ok [Event.updateOutputModel t.last ("last_" ++ t.args.name) false]
  else Except.ok []

/-- Arguments the handler passes to the external `Task.init` call. -/
structure TaskInitArgs where
  projectName : String
  taskName : String
  tags : List String
  outputUri : Bool
  reuseLastTaskId : Bool
  autoConnectPytorch : Bool
  autoConnectMatplotlib : Bool
  deriving DecidableEq, Repr

/-- The remote-execution container configuration set by `set_base_docker`. -/
structure DockerConfig where
  image : String
  dockerArguments : String
  setupScript : String
  deriving DecidableEq, Repr

/-- State of a tracking session as far as the handler mutates it. -/
structure TrackingTask where
  initArgs : TaskInitArgs
  baseDocker : Option DockerConfig
  connected : List (String × Args)
  deriving DecidableEq, Repr

/-- The `Task.init` keyword arguments built by `on_pretrain_routine_start`. -/
def taskInitArgs (t : Trainer) : TaskInitArgs :=
  { projectName := t.args.project.getD "YOLOv8",
    taskName := t.args.name,
    tags := ["YOLOv8"],
    outputUri := true,
    reuseLastTaskId := false,
    autoConnectPytorch := false,
    autoConnectMatplotlib := false }

/-- The docker configuration the handler installs on the session. -/
def dockerCfg : DockerConfig :=
  { image := "ultralytics/ultralytics:latest",
    dockerArguments := "--ipc=host -e=\"CLEARML_AGENT_SKIP_PYTHON_ENV_INSTALL=1\"",
    setupScript := "pip install clearml" }

/-- Embedding of `on_pretrain_routine_start`.  The external `Task.init` call
is passed in as `init`; the source wraps it in no try block, so a raised
error propagates out of the handler unchanged.  On success the handler sets
the base docker configuration and connects the run configuration under the
parameter-group name General. -/
def on_pretrain_routine_start (init : TaskInitArgs → Except String TrackingTask)
    (t : Trainer) : Except String TrackingTask :=
  match init (taskInitArgs t) with
  | Except.error e => Except.error e
  | Except.ok task =>
    Except.ok { task with
      baseDocker := some dockerCfg,
      connected := task.connected ++ [("General", t.args)] }

/-- Names of the six handlers exported when the tracking library is usable. -/
def availableCallbackNames : List String :=
  ["on_pretrain_routine_start", "on_model_save", "on_train_epoch_end",
   "on_fit_epoch_end", "on_val_end", "on_train_end"]

/-- Embedding of the load-time guard and the exported `callbacks` mapping:
the try block keeps `clearml` non-None exactly when the module is importable
and has a version attribute, and the mapping is empty otherwise.  The source
contains no further condition. -/
def callbacksExport (importOk hasVersionAttr : Bool) : List String :=
  if importOk && hasVersionAttr then availableCallbackNames else []

/-- Follows the spec words rather than the source, for comparison: the claimed
guard additionally requires that the process is not a test run. -/
def claimedCallbacksExport (importOk hasVersionAttr notTestRun : Bool) : List String :=
  if importOk && hasVersionAttr && notTestRun then availableCallbackNames else []

/-- Map a fit-epoch-end handler over a run of epochs on a fixed base state. -/
def runFitEpochs (base : Trainer) (epochs : List Nat) : List (List Event) :=
  epochs.map (fun e => on_fit_epoch_end { base with epoch := e })

/-- Concrete sample run configuration used by the evaluation theorems. -/
def sampleArgs : Args :=
  { project := none, name := "exp", save_interval := 5 }

/-- Concrete sample model used by the evaluation theorems. -/
def sampleModel : Model :=
  { numParams := 3151904, flops := 87 / 10 }

/-- Concrete sample validator used by the evaluation theorems. -/
def sampleValidator : Validator :=
  { speed1 := 2, resultsDict := [("metrics/mAP50", 1 / 2)], diskFiles := [] }

/-- Concrete sample trainer used by the evaluation theorems. -/
def sampleTrainer : Trainer :=
  { epoch := 0, args := sampleArgs, model := sampleModel,
    validator := sampleValidator, diskFiles := [],
    last := "last.pt", best := "best.pt" }

/-- Concrete trainer whose save directory holds one of the result plots. -/
def trainEndTrainer : Trainer :=
  { epoch := 10, args := sampleArgs, model := sampleModel,
    validator := { speed1 := 2, resultsDict := [("metrics/mAP50", 1 / 2)],
                   diskFiles := [] },
    diskFiles := [⟨"results.png", true⟩], last := "last.pt", best := "best.pt" }

/-- Every character produced by `leadingDigits` is a digit. -/
theorem leadingDigits_digits (l : List Char) : ∀ c ∈ leadingDigits l, c.isDigit = true := by
  induction l with
  | nil => intro c hc; simp [leadingDigits] at hc
  | cons a l ih =>
    intro c hc
    by_cases ha : a.isDigit
    · rw [leadingDigits, if_pos ha] at hc
      rcases List.mem_cons.mp hc with h | h
      · subst h; exact ha
      · exact ih c h
    · rw [leadingDigits, if_neg ha] at hc
      simp at hc

/-- A successful `matchBatchAt` result is the token `_batch` followed by a
nonempty digit group whose decimal value is the reported number. -/
theorem matchBatchAt_spec (t : List Char) (m : BatchMatch) (h : matchBatchAt t = some m) :
    ∃ ds, ds ≠ [] ∧ (∀ c ∈ ds, c.isDigit = true) ∧
      m.token = "_batch".toList ++ ds ∧ m.num = digitsToNat ds := by
  by_cases hc : t.take 6 = "_batch".toList ∧ leadingDigits (t.drop 6) ≠ []
  · rw [matchBatchAt, if_pos hc] at h
    refine ⟨leadingDigits (t.drop 6), hc.2, leadingDigits_digits _, ?_, ?_⟩
    · rw [← Option.some_inj.mp h]
    · rw [← Option.some_inj.mp h]
  · rw [matchBatchAt, if_neg hc] at h
    simp at h

/-- The match returned by `searchBatch` sits at the leftmost position of the
string at which the pattern matches. -/
theorem searchBatch_leftmost (s : List Char) (m : BatchMatch) (h : searchBatch s = some m) :
    ∃ i, matchBatchAt (s.drop i) = some m ∧ ∀ j, j < i → matchBatchAt (s.drop j) = none := by
  induction s with
  | nil => simp [searchBatch] at h
  | cons c cs ih =>
    cases hm : matchBatchAt (c :: cs) with
    | some m2 =>
      have hm2 : m2 = m := by
        rw [searchBatch, hm] at h
        exact Option.some_inj.mp h
      exact ⟨0, by simpa [hm2] using hm, fun j hj => absurd hj (Nat.not_lt_zero j)⟩
    | none =>
      have h2 : searchBatch cs = some m := by rw [searchBatch, hm] at h; exact h
      obtain ⟨i, hi1, hi2⟩ := ih h2
      refine ⟨i + 1, by simpa using hi1, fun j hj => ?_⟩
      cases j with
      | zero => simpa using hm
      | succ k => simpa using hi2 k (Nat.lt_of_succ_lt_succ hj)

/-- If the scan finds no occurrence, `replaceAllAux` leaves the string
unchanged. -/
theorem countAux_zero_replaceAux (pat : List Char) :
    ∀ fuel, ∀ s : List Char, s.length ≤ fuel → countOccAux pat fuel s = 0 →
      replaceAllAux pat fuel s = s := by
  intro fuel
  induction fuel with
  | zero => intro s _ _; rfl
  | succ n ih =>
    intro s hs hc
    cases s with
    | nil => rfl
    | cons c cs =>
      by_cases h : 0 < pat.length ∧ (c :: cs).take pat.length = pat
      · exfalso
        rw [countOccAux, if_pos h] at hc
        omega
      · rw [countOccAux, if_neg h] at hc
        have hs2 : cs.length ≤ n := by
          simpa using Nat.le_of_succ_le_succ (by simpa using hs)
        rw [replaceAllAux, if_neg h, ih cs hs2 hc]

/-- If the scan finds exactly one occurrence, deleting all occurrences
coincides with deleting only the first one. -/
theorem countAux_one_replaceAux (pat : List Char) :
    ∀ fuel, ∀ s : List Char, s.length ≤ fuel → countOccAux pat fuel s = 1 →
      replaceAllAux pat fuel s = removeFirstOcc pat s := by
  intro fuel
  induction fuel with
  | zero =>
    intro s hs hc
    have : s = [] := List.length_eq_zero.mp (Nat.le_zero.mp hs)
    subst this
    simp [countOccAux] at hc
  | succ n ih =>
    intro s hs hc
    cases s with
    | nil => simp [countOccAux] at hc
    | cons c cs =>
      by_cases h : 0 < pat.length ∧ (c :: cs).take pat.length = pat
      · have hp : 0 < pat.length := h.1
        rw [countOccAux, if_pos h] at hc
        have hc2 : countOccAux pat n ((c :: cs).drop pat.length) = 0 := by omega
        have hlen : ((c :: cs).drop pat.length).length ≤ n := by
          rw [List.length_drop]
          have : (c :: cs).length ≤ n + 1 := hs
          simp only [List.length_cons] at this ⊢
          omega
        rw [replaceAllAux, if_pos h, removeFirstOcc, if_pos h]
        exact countAux_zero_replaceAux pat n _ hlen hc2
      · rw [countOccAux, if_neg h] at hc
        have hs2 : cs.length ≤ n := by
          have : (c :: cs).length ≤ n + 1 := hs
          simp only [List.length_cons] at this
          omega
        rw [replaceAllAux, if_neg h, removeFirstOcc, if_neg h, ih cs hs2 hc]

/-- C1: at a concrete trainer whose run directory holds `results.png` and
whose validator reports one metric, `on_train_end` emits the plot and the
metric but no checkpoint upload at all, refuting the claim that it
afterwards uploads the best checkpoint as an output model artifact. -/
theorem C1_counterexample :
    on_train_end trainEndTrainer =
      [Event.reportPlot "results", Event.reportSingleValue "metrics/mAP50" (1 / 2)] ∧
    ∀ e ∈ on_train_end trainEndTrainer, Event.isModelUpload e = false := by
  refine ⟨rfl, ?_⟩
  decide

/-- C1 (amended): after the plot events, `on_train_end` reports every entry
of the validator results mapping, in order, as a single value; it performs
no checkpoint upload. -/
theorem C1_final_metrics_after_plots_no_upload (t : Trainer) :
    (∃ plots, on_train_end t = plots ++ t.validator.resultsDict.map
        (fun kv => Event.reportSingleValue kv.1 kv.2) ∧
      ∀ e ∈ plots, ∃ s, e = Event.reportPlot s) ∧
    ∀ e ∈ on_train_end t, Event.isModelUpload e = false := by
  constructor
  · refine ⟨(resultPlotNames.filter (fun n => fileExists t n)).map
        (fun n => Event.reportPlot (stem n)), rfl, ?_⟩
    intro e he
    obtain ⟨n, _, rfl⟩ := List.mem_map.mp he
    exact ⟨stem n, rfl⟩
  · intro e he
    rw [on_train_end] at he
    rcases List.mem_append.mp he with h | h
    · obtain ⟨n, _, rfl⟩ := List.mem_map.mp h
      rfl
    · obtain ⟨kv, _, rfl⟩ := List.mem_map.mp h
      rfl

/-- C2: the name `val1.jpg` has no batch token, and on a validator whose
save directory holds that existing file, `on_val_end` raises AttributeError
instead of uploading it with iteration 0; the guarded iteration default in
the same source line shows the intent the claim states. -/
theorem C2_no_token_raises :
    searchBatch ("val1.jpg".toList) = none ∧
    on_val_end { speed1 := 0, resultsDict := [], diskFiles := [⟨"val1.jpg", true⟩] } =
      Except.error "AttributeError: NoneType object has no attribute group" :=
  ⟨rfl, rfl⟩

/-- C3: when session creation fails, the error propagates out of
`on_pretrain_routine_start` unchanged, refuting the claim that the handler
catches it and returns normally. -/
theorem C3_counterexample :
    on_pretrain_routine_start (fun _ => Except.error "ConnectionError: failed to create task")
      sampleTrainer = Except.error "ConnectionError: failed to create task" := rfl

/-- C3 (amended): any error raised while creating the tracking session
propagates out of the handler uncaught; the handler returns normally exactly
when creation succeeds, in which case it installs the docker configuration
and connects the run configuration under the group name General. -/
theorem C3_init_error_propagates (t : Trainer) (e : String) :
    on_pretrain_routine_start (fun _ => Except.error e) t = Except.error e ∧
    ∀ task : TrackingTask, on_pretrain_routine_start (fun _ => Except.ok task) t =
      Except.ok { task with
        baseDocker := some dockerCfg
        connected := task.connected ++ [("General", t.args)] } :=
  ⟨rfl, fun _ => rfl⟩

/-- C5: on the name `x_batch1_batch1.jpg` the matched token `_batch1` occurs
twice; the derived series name is `x.jpg`, with both occurrences removed,
not `x_batch1.jpg` as removing only the matched occurrence would give. -/
theorem C5_counterexample :
    logDebugSample "Mosaic" ⟨"x_batch1_batch1.jpg", true⟩ =
      Except.ok [Event.reportImage "Mosaic" "x.jpg" "x_batch1_batch1.jpg" 1] ∧
    String.mk (removeFirstOcc ("_batch1".toList) ("x_batch1_batch1.jpg".toList)) =
      "x_batch1.jpg" ∧
    ("x.jpg" : String) ≠ "x_batch1.jpg" := by
  refine ⟨rfl, rfl, ?_⟩
  decide

/-- C5 (amended): the derived series name deletes every occurrence of the
matched token from the file name; when the token occurs exactly once, this
coincides with removing exactly the matched substring, as the claim states. -/
theorem C5_series_single_occurrence (title : String) (f : FsFile) (m : BatchMatch)
    (hex : f.existsOnDisk = true) (hm : searchBatch f.name.toList = some m)
    (hone : countOcc m.token f.name.toList = 1) :
    logDebugSample title f =
      Except.ok [Event.reportImage title
        (String.mk (removeFirstOcc m.token f.name.toList)) f.name m.num] := by
  have hr : replaceAll m.token f.name.toList = removeFirstOcc m.token f.name.toList :=
    countAux_one_replaceAux m.token (f.name.toList.length) (f.name.toList) le_rfl hone
  have hm2 : searchBatch f.name.data = some m := hm
  have hr2 : replaceAll m.token f.name.data = removeFirstOcc m.token f.name.data := hr
  simp [logDebugSample, hex, hm2, hr2]

/-- C5 witness: evaluation of the amended theorem on `train_batch0.jpg`,
whose matched token occurs exactly once. -/
theorem C5_witness :
    (FsFile.mk "train_batch0.jpg" true).existsOnDisk = true ∧
    searchBatch ("train_batch0.jpg".toList) = some (BatchMatch.mk "_batch0".toList 0) ∧
    countOcc ("_batch0".toList) ("train_batch0.jpg".toList) = 1 ∧
    logDebugSample "Mosaic" (FsFile.mk "train_batch0.jpg" true) =
      Except.ok [Event.reportImage "Mosaic"
        (String.mk (removeFirstOcc ("_batch0".toList) ("train_batch0.jpg".toList)))
        "train_batch0.jpg" 0] :=
  ⟨rfl, by decide, by decide,
   C5_series_single_occurrence "Mosaic" (FsFile.mk "train_batch0.jpg" true)
     (BatchMatch.mk "_batch0".toList 0) rfl (by decide) (by decide)⟩

/-- C6: with the library importable and carrying a version attribute, the
exported mapping holds all six handlers even in a test run; the spec-claimed
guard with a test-run check would export nothing there, so the claim fails
on the source, whose guard has no test-run condition. -/
theorem C6_counterexample :
    claimedCallbacksExport true true false = [] ∧
    callbacksExport true true = availableCallbackNames ∧
    callbacksExport true true ≠ [] := by
  refine ⟨rfl, rfl, ?_⟩
  decide

/-- C6 (amended): the load-time guard checks only that the library imports
and has a version attribute; the exported mapping is empty exactly when that
check fails, and otherwise holds the six handler names, so a failed check
means the host loop performs zero calls into tracking code. -/
theorem C6_guard_no_test_check (importOk hasVersionAttr : Bool) :
    (callbacksExport importOk hasVersionAttr = [] ↔ (importOk && hasVersionAttr) = false) ∧
    (callbacksExport importOk hasVersionAttr = [] ∨
     callbacksExport importOk hasVersionAttr = availableCallbackNames) := by
  cases importOk <;> cases hasVersionAttr <;> decide

/-- C7: over any run of fit-epoch-end events with strictly increasing epoch
indices containing epoch 0, the model-characterization block is emitted in
exactly one event, and an event emits it exactly when its epoch is 0. -/
theorem C7_model_info_once (base : Trainer) (epochs : List Nat)
    (hinc : epochs.Pairwise (· < ·)) (h0 : 0 ∈ epochs) :
    ((runFitEpochs base epochs).filter (fun evs => !evs.isEmpty)).length = 1 ∧
    ∀ e ∈ epochs, (on_fit_epoch_end { base with epoch := e } ≠ [] ↔ e = 0) := by
  have hval : ∀ e, on_fit_epoch_end { base with epoch := e } ≠ [] ↔ e = 0 := by
    intro e
    by_cases he : e = 0
    · subst he; simp [on_fit_epoch_end]
    · simp [on_fit_epoch_end, he]
  refine ⟨?_, fun e _ => hval e⟩
  cases epochs with
  | nil => simp at h0
  | cons a t =>
    have ha : a = 0 := by
      rcases List.mem_cons.mp h0 with h | h
      · exact h.symm
      · exact absurd ((List.pairwise_cons.mp hinc).1 0 h) (by omega)
    subst ha
    have htpos := (List.pairwise_cons.mp hinc).1
    have htail : (t.map (fun e => on_fit_epoch_end { base with epoch := e })).filter
        (fun evs => !evs.isEmpty) = [] := by
      rw [List.filter_eq_nil_iff]
      intro evs hevs
      obtain ⟨e, he, rfl⟩ := List.mem_map.mp hevs
      have hne : e ≠ 0 := by have := htpos e he; omega
      simp [on_fit_epoch_end, hne]
    have hh : (!(on_fit_epoch_end { base with epoch := 0 }).isEmpty) = true := by
      simp [on_fit_epoch_end]
    rw [runFitEpochs, List.map_cons, List.filter_cons, if_pos hh, htail]
    rfl

/-- C7 witness: evaluation of the once-at-epoch-0 theorem on the run with
epochs 0, 1, 2. -/
theorem C7_witness :
    ([0, 1, 2] : List Nat).Pairwise (· < ·) ∧ 0 ∈ ([0, 1, 2] : List Nat) ∧
    (((runFitEpochs sampleTrainer [0, 1, 2]).filter (fun evs => !evs.isEmpty)).length = 1 ∧
     ∀ e ∈ ([0, 1, 2] : List Nat),
       (on_fit_epoch_end { sampleTrainer with epoch := e } ≠ [] ↔ e = 0)) :=
  ⟨by decide, by decide, C7_model_info_once sampleTrainer [0, 1, 2] (by decide) (by decide)⟩

/-- C8: with a nonzero save interval, `on_model_save` uploads the last
checkpoint, named after the run with the `last_` stem and without deleting
the local file, exactly when the epoch index is divisible by the interval,
and every event it can emit is that upload, never a best-checkpoint one. -/
theorem C8_checkpoint_interval (t : Trainer) (h : t.args.save_interval ≠ 0) :
    on_model_save t = Except.ok (if t.epoch % t.args.save_interval = 0
        then [Event.updateOutputModel t.last ("last_" ++ t.args.name) false] else []) ∧
    ∀ evs, on_model_save t = Except.ok evs →
      ∀ e ∈ evs, e = Event.updateOutputModel t.last ("last_" ++ t.args.name) false := by
  have h1 : on_model_save t = Except.ok (if t.epoch % t.args.save_interval = 0
      then [Event.updateOutputModel t.last ("last_" ++ t.args.name) false] else []) := by
    rw [on_model_save, if_neg h]
    by_cases hm : t.epoch % t.args.save_interval = 0
    · rw [if_pos hm, if_pos hm]
    · rw [if_neg hm, if_neg hm]
  refine ⟨h1, fun evs hevs e he => ?_⟩
  rw [h1] at hevs
  injection hevs with h2
  subst h2
  by_cases hm : t.epoch % t.args.save_interval = 0
  · rw [if_pos hm] at he
    simpa using he
  · rw [if_neg hm] at he
    simp at he

/-- C8 witness: evaluation of the interval theorem at save interval 5 and
epoch 10, an epoch at which the upload fires. -/
theorem C8_witness :
    ({ sampleTrainer with epoch := 10 } : Trainer).args.save_interval ≠ 0 ∧
    (on_model_save { sampleTrainer with epoch := 10 } = Except.ok
        (if ({ sampleTrainer with epoch := 10 } : Trainer).epoch %
            ({ sampleTrainer with epoch := 10 } : Trainer).args.save_interval = 0
          then [Event.updateOutputModel ({ sampleTrainer with epoch := 10 } : Trainer).last
                 ("last_" ++ ({ sampleTrainer with epoch := 10 } : Trainer).args.name) false]
          else []) ∧
      ∀ evs, on_model_save { sampleTrainer with epoch := 10 } = Except.ok evs →
        ∀ e ∈ evs, e = Event.updateOutputModel
            ({ sampleTrainer with epoch := 10 } : Trainer).last
            ("last_" ++ ({ sampleTrainer with epoch := 10 } : Trainer).args.name) false) :=
  ⟨by decide, C8_checkpoint_interval { sampleTrainer with epoch := 10 } (by decide)⟩

/-- C9: for an existing file whose name carries a batch token, the handler
uploads it with iteration equal to the decimal value of the digit group of
the leftmost `_batch` token of the name. -/
theorem C9_iteration_from_first_token (title : String) (f : FsFile) (m : BatchMatch)
    (hex : f.existsOnDisk = true) (hm : searchBatch f.name.toList = some m) :
    logDebugSample title f =
      Except.ok [Event.reportImage title (String.mk (replaceAll m.token f.name.toList))
        f.name m.num] ∧
    ∃ i, matchBatchAt (f.name.toList.drop i) = some m ∧
      (∀ j, j < i → matchBatchAt (f.name.toList.drop j) = none) ∧
      ∃ ds, ds ≠ [] ∧ (∀ c ∈ ds, c.isDigit = true) ∧
        m.token = "_batch".toList ++ ds ∧ m.num = digitsToNat ds := by
  constructor
  · have hm2 : searchBatch f.name.data = some m := hm
    simp [logDebugSample, hex, hm2]
  · obtain ⟨i, h1, h2⟩ := searchBatch_leftmost _ _ hm
    obtain ⟨ds, hds1, hds2, hds3, hds4⟩ := matchBatchAt_spec _ _ h1
    exact ⟨i, h1, h2, ds, hds1, hds2, hds3, hds4⟩

/-- C9 witness: evaluation of the iteration theorem on `train_batch5.jpg`,
uploaded with iteration 5. -/
theorem C9_witness :
    (FsFile.mk "train_batch5.jpg" true).existsOnDisk = true ∧
    searchBatch ("train_batch5.jpg".toList) = some (BatchMatch.mk "_batch5".toList 5) ∧
    (logDebugSample "Mosaic" (FsFile.mk "train_batch5.jpg" true) =
      Except.ok [Event.reportImage "Mosaic"
        (String.mk (replaceAll ("_batch5".toList) ("train_batch5.jpg".toList)))
        "train_batch5.jpg" 5] ∧
     ∃ i, matchBatchAt (("train_batch5.jpg".toList).drop i) =
          some (BatchMatch.mk "_batch5".toList 5) ∧
       (∀ j, j < i → matchBatchAt (("train_batch5.jpg".toList).drop j) = none) ∧
       ∃ ds, ds ≠ [] ∧ (∀ c ∈ ds, c.isDigit = true) ∧
         (BatchMatch.mk "_batch5".toList 5).token = "_batch".toList ++ ds ∧
         (BatchMatch.mk "_batch5".toList 5).num = digitsToNat ds) :=
  ⟨rfl, by decide,
   C9_iteration_from_first_token "Mosaic" (FsFile.mk "train_batch5.jpg" true)
     (BatchMatch.mk "_batch5".toList 5) rfl (by decide)⟩

/-- C10: when the configured save interval is 0, the modulo gate of
`on_model_save` raises ZeroDivisionError, so the handler errors before any
upload event is produced. -/
theorem C10_modulo_zero (t : Trainer) (h : t.args.save_interval = 0) :
    on_model_save t = Except.error "ZeroDivisionError: integer modulo by zero" := by
  rw [on_model_save, if_pos h]

/-- C10 witness: evaluation of the modulo-zero theorem on a trainer whose
save interval is 0. -/
theorem C10_witness :
    ({ sampleTrainer with args := { sampleArgs with save_interval := 0 } } : Trainer).args.save_interval = 0 ∧
    on_model_save { sampleTrainer with args := { sampleArgs with save_interval := 0 } } =
      Except.error "ZeroDivisionError: integer modulo by zero" :=
  ⟨rfl, C10_modulo_zero { sampleTrainer with args := { sampleArgs with save_interval := 0 } } rfl⟩
